import Mathlib

/-!
Shallow embedding of the gmg-agent web front-end and auth layer.

Embedded source:
- ChatPage (handleSubmit, handleClear, and the form controls) from the
  chat page component;
- the auth middleware from src/middleware.ts together with its matcher;
- the two `authorized` callbacks from the NextAuth configurations.

React state setters executed by handleSubmit are modelled as an explicit
trace of events, applied in source order to a ChatState record; the HTTP
round trip is a parameter (HttpResult) telling whether the awaited POST
resolved or rejected, and the POST itself appears as an event in the
trace, so ordering claims are statable.
-/

namespace GMG

/-- Model of JavaScript String.prototype.trim: strip leading and
trailing whitespace. -/
def jsTrim (s : String) : String :=
  ⟨((s.data.dropWhile Char.isWhitespace).reverse.dropWhile Char.isWhitespace).reverse⟩

/-- Model of String.prototype.startsWith: character-prefix test. -/
def jsStartsWith (s p : String) : Bool := p.data.isPrefixOf s.data

/-- One chat message as stored in the `messages` React state: a role
string ("user" or "assistant") and a content string. -/
structure Message where
  role : String
  content : String
  deriving DecidableEq

/-- The React state of ChatPage: `messages`, `input`, `isLoading`, `error`. -/
structure ChatState where
  messages : List Message
  input : String
  isLoading : Bool
  error : Option String
  deriving DecidableEq

/-- Initial state of ChatPage: useState([]), useState(""), useState(false),
useState(null). -/
def initialState : ChatState :=
  { messages := [], input := "", isLoading := false, error := none }

/-- Outcome of the awaited `axios.post`: either it resolves with a body
whose `response` field is a string, or the promise rejects. -/
inductive HttpResult where
  | success (response : String)
  | failure
  deriving DecidableEq

/-- Error banner text set in the catch branch of handleSubmit. -/
def connectionErrorText : String :=
  "Failed to get response. Please check your connection."

/-- Fallback assistant message appended in the catch branch of handleSubmit. -/
def fallbackAssistantText : String :=
  "I\x27m having trouble connecting to the AI service. Please try again later."

/-- One observable step of handleSubmit or handleClear: a React state
setter, or the HTTP POST itself. -/
inductive Event where
  | setInput (v : String)
  | setLoading (b : Bool)
  | setError (e : Option String)
  | appendMessage (m : Message)
  | clearMessages
  | httpPost (url : String) (message : String) (modelName : String)
  deriving DecidableEq

/-- Effect of one event on the ChatState. `httpPost` does not change the
React state; `appendMessage` is `setMessages (prev => [...prev, m])` and
`clearMessages` is `setMessages([])`. -/
def applyEvent (s : ChatState) : Event → ChatState
  | Event.setInput v => { s with input := v }
  | Event.setLoading b => { s with isLoading := b }
  | Event.setError e => { s with error := e }
  | Event.appendMessage m => { s with messages := s.messages ++ [m] }
  | Event.clearMessages => { s with messages := [] }
  | Event.httpPost _ _ _ => s

/-- Apply a trace of events in order. -/
def applyTrace (s : ChatState) (es : List Event) : ChatState :=
  es.foldl applyEvent s

/-- The trace of handleSubmit, in source order. If the trimmed input is
empty the function returns at once and the trace is empty. Otherwise:
setInput(""), setIsLoading(true), setError(null), append the user
message, await the POST to `apiUrl ++ "/chat"` with body
(message, model = "mistral"); on success append the assistant message
built from response.data.response; on rejection set the error banner and
append the fallback assistant message; finally setIsLoading(false). -/
def handleSubmitTrace (apiUrl inputVal : String) (r : HttpResult) : List Event :=
  if jsTrim inputVal = "" then []
  else
    [Event.setInput "", Event.setLoading true, Event.setError none,
     Event.appendMessage ⟨"user", jsTrim inputVal⟩,
     Event.httpPost (apiUrl ++ "/chat") (jsTrim inputVal) "mistral"]
    ++ (match r with
        | HttpResult.success resp => [Event.appendMessage ⟨"assistant", resp⟩]
        | HttpResult.failure =>
            [Event.setError (some connectionErrorText),
             Event.appendMessage ⟨"assistant", fallbackAssistantText⟩])
    ++ [Event.setLoading false]

/-- Final ChatState after one completed handleSubmit whose HTTP round
trip had outcome `r`. -/
def handleSubmit (apiUrl : String) (s : ChatState) (r : HttpResult) : ChatState :=
  applyTrace s (handleSubmitTrace apiUrl s.input r)

/-- Trace of handleClear: setMessages([]) then setError(null). -/
def handleClearTrace : List Event := [Event.clearMessages, Event.setError none]

/-- Final ChatState after handleClear. -/
def handleClear (s : ChatState) : ChatState := applyTrace s handleClearTrace

/-- Projection of an event to an HTTP POST record (url, message, model). -/
def postOf : Event → Option (String × String × String)
  | Event.httpPost u m md => some (u, m, md)
  | _ => none

/-- The HTTP POSTs issued along a trace. -/
def tracePosts (es : List Event) : List (String × String × String) :=
  es.filterMap postOf

/-- Content of the assistant message appended for a given HTTP outcome. -/
def assistantReply : HttpResult → String
  | HttpResult.success resp => resp
  | HttpResult.failure => fallbackAssistantText

/-- Error state after a completed handleSubmit with outcome `r`. -/
def errorAfter : HttpResult → Option String
  | HttpResult.success _ => none
  | HttpResult.failure => some connectionErrorText

/-- Closed form of a completed handleSubmit on a non-empty trimmed input. -/
theorem handleSubmit_eq (apiUrl : String) (s : ChatState) (r : HttpResult)
    (h : jsTrim s.input ≠ "") :
    handleSubmit apiUrl s r =
      { messages := s.messages ++
          [⟨"user", jsTrim s.input⟩, ⟨"assistant", assistantReply r⟩],
        input := "", isLoading := false, error := errorAfter r } := by
  cases r <;>
    simp [handleSubmit, handleSubmitTrace, h, applyTrace, applyEvent,
      assistantReply, errorAfter, List.append_assoc]

/-- C2: when the POST to the chat endpoint rejects, handleSubmit sets the
error state to the connection error banner, appends exactly one assistant
message with the fallback text right after the user message carrying the
trimmed input, leaves the previously appended user message in the list,
and resets isLoading to false. -/
theorem C2_failure_path (apiUrl : String) (s : ChatState)
    (h : jsTrim s.input ≠ "") :
    (handleSubmit apiUrl s HttpResult.failure).error = some connectionErrorText ∧
    (handleSubmit apiUrl s HttpResult.failure).messages =
      s.messages ++ [⟨"user", jsTrim s.input⟩, ⟨"assistant", fallbackAssistantText⟩] ∧
    (handleSubmit apiUrl s HttpResult.failure).isLoading = false := by
  rw [handleSubmit_eq apiUrl s HttpResult.failure h]
  exact ⟨rfl, rfl, rfl⟩

/-- Witness for C2 at a concrete state. -/
theorem C2_failure_path_witness :
    (handleSubmit "http://localhost:8000/api" ⟨[], "hello", false, none⟩
        HttpResult.failure).error = some connectionErrorText ∧
    (handleSubmit "http://localhost:8000/api" ⟨[], "hello", false, none⟩
        HttpResult.failure).messages =
      [⟨"user", "hello"⟩, ⟨"assistant", fallbackAssistantText⟩] ∧
    (handleSubmit "http://localhost:8000/api" ⟨[], "hello", false, none⟩
        HttpResult.failure).isLoading = false := by
  have h := C2_failure_path "http://localhost:8000/api" ⟨[], "hello", false, none⟩
    (by decide)
  exact ⟨h.1, h.2.1.trans (by decide), h.2.2⟩

/-- C3: on a non-empty trimmed input, the handleSubmit trace carries
exactly one HTTP POST, to apiUrl ++ "/chat" with body message = trimmed
input and model = "mistral", and exactly two messages are appended, a
user one then an assistant one, whatever the HTTP outcome. -/
theorem C3_one_post_two_messages (apiUrl : String) (s : ChatState)
    (r : HttpResult) (h : jsTrim s.input ≠ "") :
    tracePosts (handleSubmitTrace apiUrl s.input r) =
      [(apiUrl ++ "/chat", jsTrim s.input, "mistral")] ∧
    (handleSubmit apiUrl s r).messages.map Message.role =
      s.messages.map Message.role ++ ["user", "assistant"] := by
  constructor
  · cases r <;> simp [handleSubmitTrace, h, tracePosts, postOf]
  · rw [handleSubmit_eq apiUrl s r h]
    simp

/-- Witness for C3 at a concrete state. -/
theorem C3_one_post_two_messages_witness :
    tracePosts (handleSubmitTrace "http://localhost:8000/api" "hello"
        HttpResult.failure) =
      [("http://localhost:8000/api/chat", "hello", "mistral")] ∧
    (handleSubmit "http://localhost:8000/api" ⟨[], "hello", false, none⟩
        HttpResult.failure).messages.map Message.role = ["user", "assistant"] := by
  have h := C3_one_post_two_messages "http://localhost:8000/api"
    ⟨[], "hello", false, none⟩ HttpResult.failure (by decide)
  exact ⟨h.1.trans (by decide), h.2.trans (by decide)⟩

/-- C4: on a successful POST, the assistant message appended has content
exactly the response field of the body, and it comes right after the
user message carrying the submitted (trimmed) text. -/
theorem C4_success_response (apiUrl resp : String) (s : ChatState)
    (h : jsTrim s.input ≠ "") :
    (handleSubmit apiUrl s (HttpResult.success resp)).messages =
      s.messages ++ [⟨"user", jsTrim s.input⟩, ⟨"assistant", resp⟩] := by
  rw [handleSubmit_eq apiUrl s (HttpResult.success resp) h]
  rfl

/-- Witness for C4 at a concrete state. -/
theorem C4_success_response_witness :
    (handleSubmit "http://localhost:8000/api" ⟨[], " hi ", false, none⟩
        (HttpResult.success "Namaste")).messages =
      [⟨"user", "hi"⟩, ⟨"assistant", "Namaste"⟩] := by
  have h := C4_success_response "http://localhost:8000/api" "Namaste"
    ⟨[], " hi ", false, none⟩ (by decide)
  exact h.trans (by decide)

/-- C5: on a non-empty trimmed input, the first four events of the
handleSubmit trace are setInput(""), setIsLoading(true), setError(null)
and the append of the user message carrying the trimmed input; the POST
is the fifth event, so all four happen before the HTTP request is sent,
and the state reached just before the POST has the user message
appended, the input reset and the error cleared. -/
theorem C5_pre_request (apiUrl : String) (s : ChatState) (r : HttpResult)
    (h : jsTrim s.input ≠ "") :
    (handleSubmitTrace apiUrl s.input r).take 4 =
      [Event.setInput "", Event.setLoading true, Event.setError none,
       Event.appendMessage ⟨"user", jsTrim s.input⟩] ∧
    (handleSubmitTrace apiUrl s.input r).get? 4 =
      some (Event.httpPost (apiUrl ++ "/chat") (jsTrim s.input) "mistral") ∧
    applyTrace s ((handleSubmitTrace apiUrl s.input r).take 4) =
      { s with
        messages := s.messages ++ [⟨"user", jsTrim s.input⟩],
        input := "", isLoading := true, error := none } := by
  refine ⟨?_, ?_, ?_⟩ <;>
    cases r <;> simp [handleSubmitTrace, h, applyTrace, applyEvent]

/-- Witness for C5 at a concrete state. -/
theorem C5_pre_request_witness :
    (handleSubmitTrace "http://localhost:8000/api" "hello"
        HttpResult.failure).take 4 =
      [Event.setInput "", Event.setLoading true, Event.setError none,
       Event.appendMessage ⟨"user", "hello"⟩] ∧
    (handleSubmitTrace "http://localhost:8000/api" "hello"
        HttpResult.failure).get? 4 =
      some (Event.httpPost "http://localhost:8000/api/chat" "hello" "mistral") ∧
    applyTrace ⟨[], "hello", false, none⟩
        ((handleSubmitTrace "http://localhost:8000/api" "hello"
          HttpResult.failure).take 4) =
      ⟨[⟨"user", "hello"⟩], "", true, none⟩ := by
  have h := C5_pre_request "http://localhost:8000/api" ⟨[], "hello", false, none⟩
    HttpResult.failure (by decide)
  exact ⟨h.1.trans (by decide), h.2.1.trans (by decide), h.2.2.trans (by decide)⟩

/-- C9: when the trimmed input is empty, handleSubmit returns at once:
its trace is empty, no HTTP POST is issued, and messages, input, error
and isLoading are all unchanged. -/
theorem C9_empty_input_noop (apiUrl : String) (s : ChatState) (r : HttpResult)
    (h : jsTrim s.input = "") :
    handleSubmitTrace apiUrl s.input r = [] ∧
    tracePosts (handleSubmitTrace apiUrl s.input r) = [] ∧
    handleSubmit apiUrl s r = s := by
  refine ⟨?_, ?_, ?_⟩ <;> simp [handleSubmit, handleSubmitTrace, h, tracePosts, applyTrace]

/-- Witness for C9 at a concrete state with whitespace-only input. -/
theorem C9_empty_input_noop_witness :
    handleSubmitTrace "http://localhost:8000/api" "   " HttpResult.failure = [] ∧
    tracePosts (handleSubmitTrace "http://localhost:8000/api" "   "
      HttpResult.failure) = [] ∧
    handleSubmit "http://localhost:8000/api"
      ⟨[⟨"user", "x"⟩, ⟨"assistant", "y"⟩], "   ", false, some "old"⟩
      HttpResult.failure =
      ⟨[⟨"user", "x"⟩, ⟨"assistant", "y"⟩], "   ", false, some "old"⟩ :=
  C9_empty_input_noop "http://localhost:8000/api"
    ⟨[⟨"user", "x"⟩, ⟨"assistant", "y"⟩], "   ", false, some "old"⟩
    HttpResult.failure (by decide)

/-- A message list alternates roles "user", "assistant", "user", ...
starting with "user" and has even length: it splits into
user/assistant pairs. -/
def alternatesUA : List Message → Bool
  | [] => true
  | u :: a :: rest => u.role == "user" && a.role == "assistant" && alternatesUA rest
  | [_] => false

/-- Appending one user/assistant pair preserves the alternation shape. -/
theorem alternatesUA_append : ∀ (l : List Message), alternatesUA l = true →
    ∀ (c1 c2 : String),
      alternatesUA (l ++ [⟨"user", c1⟩, ⟨"assistant", c2⟩]) = true
  | [], _, c1, c2 => by simp [alternatesUA]
  | [_], h, _, _ => by simp [alternatesUA] at h
  | u :: a :: rest, h, c1, c2 => by
    simp only [alternatesUA, Bool.and_eq_true] at h
    simp only [List.cons_append, alternatesUA, Bool.and_eq_true]
    exact ⟨h.1, alternatesUA_append rest h.2 c1 c2⟩

/-- An alternating list has even length. -/
theorem alternatesUA_even_length : ∀ (l : List Message),
    alternatesUA l = true → l.length % 2 = 0
  | [], _ => rfl
  | [_], h => by simp [alternatesUA] at h
  | _ :: _ :: rest, h => by
    simp only [alternatesUA, Bool.and_eq_true] at h
    have ih := alternatesUA_even_length rest h.2
    simp only [List.length_cons]
    omega

/-- An alternating list has as many user messages as assistant messages. -/
theorem alternatesUA_counts : ∀ (l : List Message), alternatesUA l = true →
    l.countP (fun m => m.role == "user") =
      l.countP (fun m => m.role == "assistant")
  | [], _ => rfl
  | [_], h => by simp [alternatesUA] at h
  | u :: a :: rest, h => by
    simp only [alternatesUA, Bool.and_eq_true, beq_iff_eq] at h
    have ih := alternatesUA_counts rest h.2
    simp [List.countP_cons, h.1.1, h.1.2, ih]

/-- User-visible operations on ChatPage state: typing in the input box,
one completed handleSubmit round trip, or a handleClear click. -/
inductive Op where
  | typing (v : String)
  | submit (r : HttpResult)
  | clear
  deriving DecidableEq

/-- Effect of one operation on the ChatState. Typing is the onChange
handler setInput(e.target.value). -/
def runOp (apiUrl : String) (s : ChatState) : Op → ChatState
  | Op.typing v => { s with input := v }
  | Op.submit r => handleSubmit apiUrl s r
  | Op.clear => handleClear s

/-- Run a sequence of operations from a state. -/
def runOps (apiUrl : String) (s : ChatState) : List Op → ChatState
  | [] => s
  | op :: ops => runOps apiUrl (runOp apiUrl s op) ops

/-- Each operation preserves the user/assistant alternation of the
message list. -/
theorem runOp_alternates (apiUrl : String) (s : ChatState) (op : Op)
    (h : alternatesUA s.messages = true) :
    alternatesUA (runOp apiUrl s op).messages = true := by
  cases op with
  | typing v => exact h
  | clear =>
    simp [runOp, handleClear, handleClearTrace, applyTrace, applyEvent, alternatesUA]
  | submit r =>
    by_cases he : jsTrim s.input = ""
    · have : runOp apiUrl s (Op.submit r) = s := by
        simp [runOp, handleSubmit, handleSubmitTrace, he, applyTrace]
      rw [this]; exact h
    · show alternatesUA (handleSubmit apiUrl s r).messages = true
      rw [handleSubmit_eq apiUrl s r he]
      exact alternatesUA_append s.messages h (jsTrim s.input) (assistantReply r)

/-- Alternation holds along any run from a state whose messages alternate. -/
theorem runOps_alternates (apiUrl : String) (ops : List Op) :
    ∀ (s : ChatState), alternatesUA s.messages = true →
      alternatesUA (runOps apiUrl s ops).messages = true := by
  induction ops with
  | nil => intro s hs; exact hs
  | cons op rest ih =>
    intro s hs
    exact ih (runOp apiUrl s op) (runOp_alternates apiUrl s op hs)

/-- C7: starting from the initial empty message list, after any sequence
of completed handleSubmit rounds, handleClear clicks and typing, the
message list alternates roles user, assistant, user, ... beginning with
user, its length is even, and user and assistant messages are equally
many. -/
theorem C7_messages_alternate (apiUrl : String) (ops : List Op) :
    alternatesUA (runOps apiUrl initialState ops).messages = true ∧
    (runOps apiUrl initialState ops).messages.length % 2 = 0 ∧
    (runOps apiUrl initialState ops).messages.countP (fun m => m.role == "user") =
      (runOps apiUrl initialState ops).messages.countP
        (fun m => m.role == "assistant") := by
  have h := runOps_alternates apiUrl ops initialState rfl
  exact ⟨h, alternatesUA_even_length _ h, alternatesUA_counts _ h⟩

/-- A GitHub user attached to a session. -/
structure User where
  id : String
  deriving DecidableEq

/-- A NextAuth session: it may or may not carry a user. -/
structure Session where
  user : Option User
  deriving DecidableEq

/-- The part of the middleware request the login gate reads: the session
(req.auth, null when absent), and the pathname and origin of req.nextUrl. -/
structure MiddlewareRequest where
  auth : Option Session
  pathname : String
  origin : String
  deriving DecidableEq

/-- The prefixes excluded by the matcher regex of src/middleware.ts:
api, _next/static, _next/image, favicon.ico, logo.png. -/
def matcherExclusions : List String :=
  ["api", "_next/static", "_next/image", "favicon.ico", "logo.png"]

/-- The matcher of src/middleware.ts: the pathname starts with a slash
and what follows the slash starts with none of the excluded prefixes. -/
def matcherMatches (pathname : String) : Bool :=
  jsStartsWith pathname "/" &&
    matcherExclusions.all
      (fun p => !(jsStartsWith ⟨pathname.data.drop 1⟩ p))

/-- Model of new URL(path, base) for a path-absolute path against an
origin: the resolved URL string. -/
def newURL (path base : String) : String := base ++ path

/-- The login gate of src/middleware.ts: with no session on a chat path
it returns a redirect to /login at the request origin, otherwise it
returns undefined (none) and the request proceeds. -/
def middleware (req : MiddlewareRequest) : Option String :=
  let isLoggedIn := req.auth.isSome
  let isOnChat := jsStartsWith req.pathname "/"
  if isOnChat && !isLoggedIn then some (newURL "/login" req.origin)
  else none

/-- C1: for every request matched by the matcher, when the session is
absent the middleware returns a redirect to /login at the request
origin, and when a session is present it returns undefined so the
request proceeds unchanged. -/
theorem C1_login_gate (req : MiddlewareRequest)
    (hm : matcherMatches req.pathname = true) :
    (req.auth = none → middleware req = some (newURL "/login" req.origin)) ∧
    (req.auth.isSome = true → middleware req = none) := by
  have hstart : jsStartsWith req.pathname "/" = true := by
    have := hm
    simp only [matcherMatches, Bool.and_eq_true] at this
    exact this.1
  constructor
  · intro ha
    simp [middleware, hstart, ha]
  · intro ha
    simp [middleware, hstart, ha]

/-- Witness for C1 at a matched pathname, once without and once with a
session. -/
theorem C1_login_gate_witness :
    middleware ⟨none, "/chat", "https://gmg.example"⟩ =
      some "https://gmg.example/login" ∧
    middleware ⟨some ⟨some ⟨"u1"⟩⟩, "/chat", "https://gmg.example"⟩ = none := by
  constructor
  · exact ((C1_login_gate ⟨none, "/chat", "https://gmg.example"⟩
      (by decide)).1 rfl).trans (by decide)
  · exact (C1_login_gate ⟨some ⟨some ⟨"u1"⟩⟩, "/chat", "https://gmg.example"⟩
      (by decide)).2 rfl

/-- The authorized callback of the standalone auth config
(src/unnamed/part_000): on a chat path return isLoggedIn, else true. -/
def authorized_part000 (auth : Option Session) (pathname : String) : Bool :=
  let isLoggedIn := (auth.bind Session.user).isSome
  let isOnChat := jsStartsWith pathname "/"
  if isOnChat then isLoggedIn else true

/-- The authorized callback of the NextAuth config in
src/unnamed/part_006: on a chat path with no logged-in user return
false, else true. -/
def authorized_part006 (auth : Option Session) (pathname : String) : Bool :=
  let isLoggedIn := (auth.bind Session.user).isSome
  let isOnChat := jsStartsWith pathname "/"
  if isOnChat && !isLoggedIn then false else true

/-- C8: the authorized callbacks of part_000 and part_006 agree on every
pair of session and pathname. -/
theorem C8_authorized_agree (auth : Option Session) (pathname : String) :
    authorized_part000 auth pathname = authorized_part006 auth pathname := by
  cases hL : (auth.bind Session.user).isSome <;>
    cases hC : jsStartsWith pathname "/" <;>
      simp [authorized_part000, authorized_part006, hL, hC]

/-- The disabled attribute of the text input: disabled={isLoading}. -/
def inputDisabled (s : ChatState) : Bool := s.isLoading

/-- The disabled attribute of the Send button:
disabled={!input.trim() || isLoading}. -/
def sendDisabled (s : ChatState) : Bool :=
  jsTrim s.input == "" || s.isLoading

/-- The synchronous prefix of handleSubmit, run before the await of the
POST: the first four events of its trace. -/
def submitPre (s : ChatState) : ChatState :=
  applyTrace s
    [Event.setInput "", Event.setLoading true, Event.setError none,
     Event.appendMessage ⟨"user", jsTrim s.input⟩]

/-- The continuation of handleSubmit run when the awaited POST settles
with outcome `r`: the events of its trace after the POST. -/
def responseTrace : HttpResult → List Event
  | HttpResult.success resp =>
      [Event.appendMessage ⟨"assistant", resp⟩, Event.setLoading false]
  | HttpResult.failure =>
      [Event.setError (some connectionErrorText),
       Event.appendMessage ⟨"assistant", fallbackAssistantText⟩,
       Event.setLoading false]

/-- State reached when the awaited POST settles with outcome `r`. -/
def submitPost (r : HttpResult) (s : ChatState) : ChatState :=
  applyTrace s (responseTrace r)

/-- Splitting a completed handleSubmit at the await point: the final
state is the response continuation applied to the pre-request state. -/
theorem handleSubmit_split (apiUrl : String) (s : ChatState) (r : HttpResult)
    (h : jsTrim s.input ≠ "") :
    handleSubmit apiUrl s r = submitPost r (submitPre s) := by
  cases r <;>
    simp [handleSubmit, handleSubmitTrace, h, submitPost, submitPre,
      responseTrace, applyTrace, applyEvent]

/-- A ChatPage UI configuration: the React state plus the number of chat
requests currently outstanding. -/
structure UiState where
  chat : ChatState
  inFlight : Nat
  deriving DecidableEq

/-- Interactions with the page: typing into the input (its onChange),
submitting the form, a pending request settling, and the Clear Chat
click. -/
inductive UiEvent where
  | typing (v : String)
  | submitClick
  | complete (r : HttpResult)
  | clearClick
  deriving DecidableEq

/-- Initial UI configuration: initial React state, nothing in flight. -/
def initUiState : UiState := { chat := initialState, inFlight := 0 }

/-- One UI step. A disabled control produces no event, so typing is
impossible while the input is disabled and a form submit is impossible
while the Send button is disabled; a submit whose trimmed input is empty
returns at once; otherwise the synchronous prefix of handleSubmit runs
and one request goes in flight; a settle event needs an outstanding
request and runs the response continuation; Clear Chat is always
enabled. -/
def uiStep (s : UiState) : UiEvent → Option UiState
  | UiEvent.typing v =>
      if inputDisabled s.chat then none
      else some { s with chat := { s.chat with input := v } }
  | UiEvent.submitClick =>
      if sendDisabled s.chat then none
      else if jsTrim s.chat.input = "" then some s
      else some { chat := submitPre s.chat, inFlight := s.inFlight + 1 }
  | UiEvent.complete r =>
      match s.inFlight with
      | 0 => none
      | n + 1 => some { chat := submitPost r s.chat, inFlight := n }
  | UiEvent.clearClick => some { s with chat := handleClear s.chat }

/-- Run a sequence of UI events; none when some event was impossible. -/
def runUi (s : UiState) : List UiEvent → Option UiState
  | [] => some s
  | e :: es =>
      match uiStep s e with
      | none => none
      | some s2 => runUi s2 es

/-- Invariant tying the loading flag to the number of outstanding
requests: exactly one request is in flight while isLoading holds, none
otherwise. -/
def loadingInv (s : UiState) : Prop :=
  s.inFlight = if s.chat.isLoading then 1 else 0

/-- Each possible UI step preserves the loading invariant. -/
theorem uiStep_loadingInv {s t : UiState} {e : UiEvent}
    (hs : loadingInv s) (h : uiStep s e = some t) : loadingInv t := by
  cases e with
  | typing v =>
    by_cases hd : inputDisabled s.chat = true
    · simp [uiStep, hd] at h
    · simp only [uiStep, Bool.not_eq_true] at hd
      simp only [uiStep, hd, Bool.false_eq_true, if_false,
        Option.some.injEq] at h
      subst h
      exact hs
  | submitClick =>
    by_cases hd : sendDisabled s.chat = true
    · simp [uiStep, hd] at h
    · simp only [Bool.not_eq_true] at hd
      have hload : s.chat.isLoading = false := by
        simp only [sendDisabled, Bool.or_eq_false_iff] at hd
        exact hd.2
      have hzero : s.inFlight = 0 := by
        simp only [loadingInv, hload, if_false] at hs
        exact hs
      by_cases he : jsTrim s.chat.input = ""
      · simp only [uiStep, hd, Bool.false_eq_true, if_false, he, if_true,
          Option.some.injEq] at h
        subst h
        exact hs
      · simp only [uiStep, hd, Bool.false_eq_true, if_false, he,
          Option.some.injEq] at h
        subst h
        simp [loadingInv, submitPre, applyTrace, applyEvent, hzero]
  | complete r =>
    cases hf : s.inFlight with
    | zero => simp [uiStep, hf] at h
    | succ n =>
      simp only [uiStep, hf, Option.some.injEq] at h
      subst h
      have hload : s.chat.isLoading = true := by
        by_contra hc
        simp only [Bool.not_eq_true] at hc
        simp [loadingInv, hc, hf] at hs
      have hn : n = 0 := by
        simp only [loadingInv, hload, if_true, hf] at hs
        omega
      have hpost : (submitPost r s.chat).isLoading = false := by
        cases r <;> simp [submitPost, responseTrace, applyTrace, applyEvent]
      simp [loadingInv, hpost, hn]
  | clearClick =>
    simp only [uiStep, Option.some.injEq] at h
    subst h
    have : (handleClear s.chat).isLoading = s.chat.isLoading := rfl
    simpa [loadingInv, this] using hs


/-- The loading invariant holds along any possible run. -/
theorem runUi_loadingInv (es : List UiEvent) :
    ∀ {s t : UiState}, loadingInv s → runUi s es = some t → loadingInv t := by
  induction es with
  | nil =>
    intro s t hs h
    simp only [runUi, Option.some.injEq] at h
    subst h
    exact hs
  | cons e rest ih =>
    intro s t hs h
    cases heq : uiStep s e with
    | none => simp [runUi, heq] at h
    | some s2 =>
      simp only [runUi, heq] at h
      exact ih (uiStep_loadingInv hs heq) h

/-- C6: in every UI configuration reachable from the initial one, while
isLoading holds both the text input and the Send button are disabled,
and at most one chat request is outstanding, so two requests are never
in flight at the same time. -/
theorem C6_no_concurrent_requests (es : List UiEvent) (s : UiState)
    (h : runUi initUiState es = some s) :
    (s.chat.isLoading = true →
      inputDisabled s.chat = true ∧ sendDisabled s.chat = true) ∧
    s.inFlight ≤ 1 := by
  have hinv : loadingInv s := runUi_loadingInv es (by rfl) h
  constructor
  · intro hl
    refine ⟨hl, ?_⟩
    simp [sendDisabled, hl]
  · simp only [loadingInv] at hinv
    cases hl : s.chat.isLoading <;> simp [hl] at hinv <;> omega

/-- Witness for C6 on a run that types and submits. -/
theorem C6_no_concurrent_requests_witness :
    (inputDisabled ⟨[⟨"user", "hi"⟩], "", true, none⟩ = true ∧
     sendDisabled ⟨[⟨"user", "hi"⟩], "", true, none⟩ = true) ∧
    (1 : Nat) ≤ 1 := by
  have h := C6_no_concurrent_requests [UiEvent.typing "hi", UiEvent.submitClick]
    ⟨⟨[⟨"user", "hi"⟩], "", true, none⟩, 1⟩ (by decide)
  exact ⟨h.1 rfl, h.2⟩

end GMG
